import Mathlib

/-!
# allied_cli: the device-session protocol server of `src/main.cpp`

A shallow embedding of the request/reply loop of `main`, of the `ImageCam`
session class and of the acquisition callback, followed by theorems about them.

Modelling conventions.

* C strings are Lean `String`s; a `char *` that may be `NULL` is an
  `Option String` (`zmsg_popstr` returns `NULL` when the message has no frame
  left).  Handing `NULL` to `strcmp`, `atol`, `atof`, `strdup` or to a
  `std::string` is a fault that ends the process: the loop body returns
  `Except.error`.
* A `zmsg_t` is the list of its frames, front first; `zmsg_pushstr` puts a
  frame at the front.
* The camera API (`allied_*`) and the digital-I/O API (`WriteBit_aDIO`) are
  outside the repository.  Every call to them is recorded, in order, in
  `World.log`; what a call returns is given by a `Driver`, which may depend on
  the whole history of calls.
* `std::map<uint32_t, ImageCam>` is an association list in ascending key order.
* `StringHasher`, `atof` and `string_format("%.6f", ·)` are parameters (`Libs`).
* `ImageCam image_cam = imagecams.at(chash)` copies the session; the copy is
  destroyed at the end of its block (`ImageCam.destroy`), the session in the
  registry is not touched.
* A frame is taken to hold no NUL byte, so that a frame and the C string
  `zmsg_popstr` makes of it are the same text.
-/

namespace AlliedCli

/-! ## Status codes and command codes -/

/-- The status type of the camera API, a C `int`. -/
abbrev VmbError_t := Int

/-- Status `VmbErrorSuccess`; the value is that of the camera SDK header, which
is not part of the repository. -/
abbrev VmbErrorSuccess : VmbError_t := 0

/-- Status `VmbErrorNotFound`; the value is that of the camera SDK header. -/
abbrev VmbErrorNotFound : VmbError_t := -3

/-- Status `VmbErrorWrongType`; the value is that of the camera SDK header. -/
abbrev VmbErrorWrongType : VmbError_t := -10

namespace CommandNames

abbrev image_format : Int := 100
abbrev sensor_bit_depth : Int := 101
abbrev trigline : Int := 102
abbrev trigline_src : Int := 103
abbrev exposure_us : Int := 104
abbrev acq_framerate : Int := 105
abbrev acq_framerate_auto : Int := 106
abbrev image_size : Int := 200
abbrev image_ofst : Int := 201
abbrev sensor_size : Int := 202
abbrev throughput_limit : Int := 300
abbrev throughput_limit_range : Int := 301
abbrev adio_bit : Int := 10

end CommandNames

/-! ## C library functions used by the loop -/

/-- Largest value of a 64-bit `long`. -/
def LONG_MAX : Int := 2 ^ 63 - 1

/-- Smallest value of a 64-bit `long`. -/
def LONG_MIN : Int := -(2 ^ 63)

/-- The C `isspace` in the "C" locale: space and the controls 9 to 13. -/
def isspace (c : Char) : Bool :=
  c.toNat == 32 || (decide (9 ≤ c.toNat) && decide (c.toNat ≤ 13))

/-- The C `isdigit`. -/
def isdigit (c : Char) : Bool :=
  decide (48 ≤ c.toNat) && decide (c.toNat ≤ 57)

/-- Value of the longest prefix of decimal digits, continuing from `acc`. -/
def strtol_digits : List Char → Nat → Nat
  | [], acc => acc
  | c :: cs, acc =>
    if isdigit c then strtol_digits cs (acc * 10 + (c.toNat - 48)) else acc

/-- The C `atol` on a non-null string: leading white space is skipped, one
optional sign is read, then the longest run of decimal digits; no digits give
`0`; a value outside `long` is clamped as `strtol` does. -/
def atol (s : String) : Int :=
  match s.toList.dropWhile isspace with
  | [] => 0
  | c :: cs =>
    if c.toNat = 45 then max LONG_MIN (-(strtol_digits cs 0 : Int))
    else if c.toNat = 43 then min LONG_MAX (strtol_digits cs 0 : Int)
    else min LONG_MAX (strtol_digits (c :: cs) 0 : Int)

/-- Conversion of a `long` to a 32-bit `int` (the assignment to `adio_bit`). -/
def long_to_int (v : Int) : Int :=
  (v + 2 ^ 31) % 2 ^ 32 - 2 ^ 31

/-- The C `tolower` in the "C" locale. -/
def tolower (c : Char) : Char :=
  if 65 ≤ c.toNat ∧ c.toNat ≤ 90 then Char.ofNat (c.toNat + 32) else c

/-- Decimal digits of `n`, most significant first, put in front of `acc`. -/
def to_digits : Nat → Nat → List Char → List Char
  | 0, n, acc => Char.ofNat (48 + n % 10) :: acc
  | fuel + 1, n, acc =>
    if n < 10 then Char.ofNat (48 + n) :: acc
    else to_digits fuel (n / 10) (Char.ofNat (48 + n % 10) :: acc)

/-- Decimal text of a natural number. -/
def to_string_nat (n : Nat) : String :=
  String.mk (to_digits n n [])

/-- The functions `std::to_string` on an integer and `printf("%d")`: decimal
text, with a leading minus sign for a negative value. -/
def to_string (v : Int) : String :=
  match v with
  | Int.ofNat n => to_string_nat n
  | Int.negSucc n => "-" ++ to_string_nat (n + 1)

/-- A C `double`, kept as its 64-bit pattern. -/
structure Double where
  bits : Nat
  deriving DecidableEq, Repr

/-- Library functions whose code is not part of `main.cpp`. -/
structure Libs where
  /-- The method `StringHasher::get_hash`. -/
  get_hash : String → Nat
  /-- The C `atof` on a non-null string. -/
  atof : String → Double
  /-- The call `string_format("%.6f", ·)`. -/
  format_f6 : Double → String

/-- The `uint32_t` a device-id string hashes to. -/
def Libs.hash32 (lib : Libs) (s : String) : Nat :=
  lib.get_hash s % 2 ^ 32

/-! ## The external drivers -/

/-- A non-null `AlliedCameraHandle_t`. -/
abbrev Handle := Nat

/-- A non-null aDIO `DeviceHandle`. -/
abbrev DeviceHandle := Nat

/-- The value handed to a driver setter. -/
inductive Arg where
  | str (s : Option String)
  | int (v : Int)
  | dbl (v : Double)
  | bool (b : Bool)
  | pair (a b : Int)
  deriving DecidableEq, Repr

/-- One call into the camera API or the digital-I/O API. -/
inductive Call where
  /-- The call `allied_open_camera(&handle, idstr, 5)`. -/
  | open_camera (idstr : String)
  /-- The call `allied_start_capture(handle, &Callback, this)`. -/
  | start_capture (h : Option Handle)
  /-- The call `allied_stop_capture(handle)`. -/
  | stop_capture (h : Option Handle)
  /-- The call `allied_close_camera(&handle)`. -/
  | close_camera (h : Option Handle)
  /-- A setter `allied_set_NAME(handle, ...)`, `NAME` given by its command code. -/
  | set (cmd : Int) (h : Option Handle) (a : Arg)
  /-- A getter `allied_get_NAME(handle, ...)`, `NAME` given by its command code. -/
  | get (cmd : Int) (h : Option Handle)
  /-- The call `WriteBit_aDIO(dev, port, bit, val)`. -/
  | WriteBit_aDIO (dev : DeviceHandle) (port : Int) (bit : Int) (val : Nat)
  deriving DecidableEq, Repr

/-- What the camera API answers.  Every answer may depend on the calls made so
far (the first argument). -/
structure Driver where
  allied_open_camera : List Call → String → VmbError_t × Option Handle
  allied_start_capture : List Call → Option Handle → VmbError_t
  allied_stop_capture : List Call → Option Handle → VmbError_t
  /-- The handle variable after `allied_close_camera(&handle)`. -/
  allied_close_camera : List Call → Option Handle → Option Handle
  allied_set : List Call → Int → Option Handle → Arg → VmbError_t
  /-- Status and the `char *` left in the out-parameter. -/
  allied_get_str : List Call → Int → Option Handle → VmbError_t × Option String
  allied_get_dbl : List Call → Int → Option Handle → VmbError_t × Double
  allied_get_bool : List Call → Int → Option Handle → VmbError_t × Int
  allied_get_int : List Call → Int → Option Handle → VmbError_t × Int
  /-- Status and the two `VmbInt64_t` out-parameters after the call. -/
  allied_get_pair : List Call → Int → Option Handle → VmbError_t × Int × Int

/-- Everything outside the process that the loop acts on. -/
structure World where
  /-- Driver calls made so far, oldest first. -/
  log : List Call
  /-- Replies sent on the socket so far, oldest first; a reply is its frames. -/
  sent : List (List String)
  deriving DecidableEq, Repr

/-- Record one driver call. -/
def World.call (w : World) (c : Call) : World :=
  { w with log := w.log ++ [c] }

/-- The call `zmsg_send`. -/
def World.send (w : World) (frames : List String) : World :=
  { w with sent := w.sent ++ [frames] }

/-! ## `CameraInfo` and `ImageCam` -/

structure CameraInfo where
  idstr : String := ""
  name : String := ""
  model : String := ""
  serial : String := ""
  deriving DecidableEq, Repr

/-- The class `ImageCam`; `state` is an `unsigned char`, `adio_bit` an `int`,
the two handles are `none` when they are `nullptr`. -/
structure ImageCam where
  opened : Bool := false
  state : Nat := 0
  capturing : Bool := false
  adio_hdl : Option DeviceHandle := none
  info : CameraInfo := {}
  adio_bit : Int := -1
  handle : Option Handle := none
  deriving DecidableEq, Repr

/-- The C expression `~x` on an `unsigned char` stored back into an
`unsigned char`: `x` is promoted to `int`, complemented, reduced modulo 256. -/
def not_uchar (x : Nat) : Nat :=
  ((-(x : Int) - 1) % 256).toNat

namespace ImageCam

/-- The constructor `ImageCam(CameraInfo &, DeviceHandle)`; `none` stands for
the `std::runtime_error` thrown when the camera cannot be opened. -/
def create (d : Driver) (camera_info : CameraInfo) (adio_hdl : Option DeviceHandle)
    (w : World) : Option ImageCam × World :=
  let r := d.allied_open_camera w.log camera_info.idstr
  let w1 := w.call (Call.open_camera camera_info.idstr)
  if r.1 ≠ VmbErrorSuccess then (none, w1)
  else (some { handle := r.2, capturing := false, adio_hdl := adio_hdl, info := camera_info }, w1)

/-- The static member `ImageCam::Callback`, with `self` the session behind
`user_data`. -/
def Callback (self : ImageCam) (w : World) : ImageCam × World :=
  match self.adio_hdl with
  | some dev =>
    if self.adio_bit ≥ 0 then
      let s := not_uchar self.state
      ({ self with state := s }, w.call (Call.WriteBit_aDIO dev 0 self.adio_bit s))
    else (self, w)
  | none => (self, w)

/-- The method `ImageCam::cleanup`. -/
def cleanup (d : Driver) (self : ImageCam) (w : World) : ImageCam × World :=
  if self.opened then
    let w1 := w.call (Call.stop_capture self.handle)
    let h := d.allied_close_camera w1.log self.handle
    let w2 := w1.call (Call.close_camera self.handle)
    ({ self with handle := h, opened := false }, w2)
  else (self, w)

/-- The method `ImageCam::close_camera`. -/
def close_camera (d : Driver) (self : ImageCam) (w : World) : ImageCam × World :=
  let r := self.cleanup d w
  ({ r.1 with opened := false }, r.2)

/-- The destructor `~ImageCam`: what is left of the world once the object is
gone. -/
def destroy (d : Driver) (self : ImageCam) (w : World) : World :=
  (self.close_camera d w).2

/-- The method `ImageCam::running`. -/
def running (self : ImageCam) : Bool :=
  self.capturing

/-- The method `ImageCam::start_capture`. -/
def start_capture (d : Driver) (self : ImageCam) (w : World) :
    VmbError_t × ImageCam × World :=
  match self.handle with
  | some h =>
    if !self.capturing then
      (d.allied_start_capture w.log (some h), self, w.call (Call.start_capture (some h)))
    else (VmbErrorSuccess, self, w)
  | none => (VmbErrorSuccess, self, w)

/-- The method `ImageCam::stop_capture`. -/
def stop_capture (d : Driver) (self : ImageCam) (w : World) :
    VmbError_t × ImageCam × World :=
  match self.handle with
  | some h =>
    if self.capturing then
      let err := d.allied_stop_capture w.log (some h)
      let w1 := w.call (Call.stop_capture (some h))
      match self.adio_hdl with
      | some dev =>
        if self.adio_bit ≥ 0 then
          (err, { self with state := 0 }, w1.call (Call.WriteBit_aDIO dev 0 self.adio_bit 0))
        else (err, self, w1)
      | none => (err, self, w1)
    else (VmbErrorSuccess, self, w)
  | none => (VmbErrorSuccess, self, w)

end ImageCam

/-! ## The registry -/

/-- The container `std::map<uint32_t, ImageCam>`, in ascending key order. -/
abbrev Registry := List (Nat × ImageCam)

/-- The call `imagecams.at(key)`; `none` stands for `std::out_of_range`. -/
def map_at : Registry → Nat → Option ImageCam
  | [], _ => none
  | (k, v) :: rest, key => if k = key then some v else map_at rest key

/-- The call `imagecams.insert(std::pair(key, cam))`: a key already present
keeps its old value. -/
def map_insert : Registry → Nat → ImageCam → Registry
  | [], key, cam => [(key, cam)]
  | (k, v) :: rest, key, cam =>
    if key < k then (key, cam) :: (k, v) :: rest
    else if key = k then (k, v) :: rest
    else (k, v) :: map_insert rest key cam

/-- The state of `main` that the loop reads and writes. -/
structure Server where
  /-- The flag `done`. -/
  done : Bool
  camids : List Nat
  imagecams : Registry
  world : World
  deriving DecidableEq, Repr

/-- The enumeration loop of `main` over the cameras the driver listed; `none`
when a camera cannot be opened (the exception leaves `main`). -/
def enumerate (lib : Libs) (d : Driver) (adio_dev : Option DeviceHandle) :
    List CameraInfo → Server → Option Server
  | [], sv => some sv
  | caminfo :: rest, sv =>
    let hash := lib.hash32 caminfo.idstr
    match ImageCam.create d caminfo adio_dev sv.world with
    | (none, _) => none
    | (some cam, w1) =>
      -- the temporaries of the insert are destroyed after it; none of them was
      -- `opened`, so one destruction stands for all
      let w2 := cam.destroy d w1
      enumerate lib d adio_dev rest
        { sv with imagecams := map_insert sv.imagecams hash cam,
                  camids := sv.camids ++ [hash], world := w2 }

/-- The loop of `start_capture_all`, over the sessions themselves (by
reference), stopping at the first failure. -/
def start_capture_all (d : Driver) : Registry → World → VmbError_t × Registry × World
  | [], w => (VmbErrorSuccess, [], w)
  | (k, cam) :: rest, w =>
    let r := cam.start_capture d w
    if r.1 ≠ VmbErrorSuccess then (r.1, (k, r.2.1) :: rest, r.2.2)
    else
      let t := start_capture_all d rest r.2.2
      (t.1, (k, r.2.1) :: t.2.1, t.2.2)

/-- The loop of `stop_capture_all`. -/
def stop_capture_all (d : Driver) : Registry → World → VmbError_t × Registry × World
  | [], w => (VmbErrorSuccess, [], w)
  | (k, cam) :: rest, w =>
    let r := cam.stop_capture d w
    if r.1 ≠ VmbErrorSuccess then (r.1, (k, r.2.1) :: rest, r.2.2)
    else
      let t := stop_capture_all d rest r.2.2
      (t.1, (k, r.2.1) :: t.2.1, t.2.2)

/-! ## One iteration of the request loop -/

/-- Why the process stops in the middle of an iteration. -/
inductive Fault where
  /-- A `NULL` pointer reached `strcmp`, `atol`, `atof`, `strdup` or a
  `std::string`. -/
  | null_pointer
  deriving DecidableEq, Repr

/-- The call `zmsg_popstr`: the first frame, or `NULL` when none is left. -/
def zmsg_popstr (m : List String) : Option String × List String :=
  match m with
  | [] => (none, [])
  | f :: rest => (some f, rest)

/-- The call `zmsg_pushstr`: a new frame at the front. -/
def zmsg_pushstr (m : List String) (s : String) : List String :=
  s :: m

/-- The call `atol` on a pointer. -/
def atol_ptr (p : Option String) : Except Fault Int :=
  match p with
  | none => Except.error Fault.null_pointer
  | some s => Except.ok (atol s)

/-- The local variables of one iteration. -/
structure Locals where
  cmd_type : String
  get_cmd : Bool := false
  set_cmd : Bool := false
  cam_id : Option String := none
  command : Option String := none
  argument : Option String := none
  reply : String := "None"
  err : VmbError_t := VmbErrorSuccess
  /-- The frames of the request not yet popped. -/
  message : List String
  deriving DecidableEq, Repr

/-- The reply text of the `list` verb. -/
def list_reply (camids : List Nat) : String :=
  camids.foldl (fun r hash => r ++ (to_string_nat hash ++ ", ")) "["

/-- A verb that works on a copy of one session (`start_capture`,
`stop_capture`): pop the device id, hash it, look it up, run `op` on the copy
and destroy the copy. -/
def single_camera (lib : Libs) (d : Driver)
    (op : Driver → ImageCam → World → VmbError_t × ImageCam × World)
    (l : Locals) (sv : Server) : Except Fault (Locals × Server) :=
  match zmsg_popstr l.message with
  | (none, _) => Except.error Fault.null_pointer
  | (some id, m) =>
    match map_at sv.imagecams (lib.hash32 id) with
    | none =>
      Except.ok ({ l with cam_id := some id, message := m, err := VmbErrorNotFound }, sv)
    | some image_cam =>
      let r := op d image_cam sv.world
      Except.ok ({ l with cam_id := some id, message := m, err := r.1 },
                 { sv with world := r.2.1.destroy d r.2.2 })

/-- Lines 555 to 638: pop the verb and the fields of the verb, and run the
verbs that take no command code. -/
def decode (lib : Libs) (d : Driver) (sv : Server) (message : List String) :
    Except Fault (Locals × Server) :=
  match zmsg_popstr message with
  | (none, _) => Except.error Fault.null_pointer
  | (some cmd_type, m) =>
    let l : Locals := { cmd_type := cmd_type, message := m }
    if cmd_type = "quit" then
      Except.ok (l, { sv with done := true })
    else if cmd_type = "list" then
      Except.ok ({ l with reply := list_reply sv.camids, err := VmbErrorSuccess }, sv)
    else if cmd_type = "start_capture_all" then
      let r := start_capture_all d sv.imagecams sv.world
      Except.ok ({ l with err := r.1 }, { sv with imagecams := r.2.1, world := r.2.2 })
    else if cmd_type = "stop_capture_all" then
      let r := stop_capture_all d sv.imagecams sv.world
      Except.ok ({ l with err := r.1 }, { sv with imagecams := r.2.1, world := r.2.2 })
    else if cmd_type = "start_capture" then
      single_camera lib d ImageCam.start_capture l sv
    else if cmd_type = "stop_capture" then
      single_camera lib d ImageCam.stop_capture l sv
    else if cmd_type = "get" then
      let p1 := zmsg_popstr m
      let p2 := zmsg_popstr p1.2
      Except.ok ({ l with cam_id := p1.1, command := p2.1, get_cmd := true, message := p2.2 }, sv)
    else if cmd_type = "set" then
      let p1 := zmsg_popstr m
      let p2 := zmsg_popstr p1.2
      let p3 := zmsg_popstr p2.2
      Except.ok ({ l with cam_id := p1.1, command := p2.1, argument := p3.1, set_cmd := true,
                          message := p3.2 }, sv)
    else
      Except.ok ({ l with err := VmbErrorWrongType }, sv)

/-- The `switch (cmd_num)` of a `set` request on the copy `image_cam`: the new
status, the copy, the frames left and the world. -/
def set_switch (lib : Libs) (d : Driver) (image_cam : ImageCam) (cmd_num : Int)
    (l : Locals) (w : World) : Except Fault (VmbError_t × ImageCam × List String × World) :=
  if cmd_num = CommandNames.image_format ∨ cmd_num = CommandNames.sensor_bit_depth
      ∨ cmd_num = CommandNames.trigline ∨ cmd_num = CommandNames.trigline_src then
    -- SET_CASE_STR
    Except.ok (d.allied_set w.log cmd_num image_cam.handle (Arg.str l.argument), image_cam,
      l.message, w.call (Call.set cmd_num image_cam.handle (Arg.str l.argument)))
  else if cmd_num = CommandNames.exposure_us ∨ cmd_num = CommandNames.acq_framerate then
    -- SET_CASE_DBL
    match l.argument with
    | none => Except.error Fault.null_pointer
    | some argument =>
      let arg := Arg.dbl (lib.atof argument)
      Except.ok (d.allied_set w.log cmd_num image_cam.handle arg, image_cam, l.message,
        w.call (Call.set cmd_num image_cam.handle arg))
  else if cmd_num = CommandNames.acq_framerate_auto then
    -- SET_CASE_BOOL
    match l.argument with
    | none => Except.error Fault.null_pointer
    | some argument =>
      let narg := String.mk (argument.toList.map tolower)
      let arg := Arg.bool (narg == "true")
      Except.ok (d.allied_set w.log cmd_num image_cam.handle arg, image_cam, l.message,
        w.call (Call.set cmd_num image_cam.handle arg))
  else if cmd_num = CommandNames.throughput_limit then
    -- SET_CASE_INT
    match l.argument with
    | none => Except.error Fault.null_pointer
    | some argument =>
      let arg := Arg.int (atol argument)
      Except.ok (d.allied_set w.log cmd_num image_cam.handle arg, image_cam, l.message,
        w.call (Call.set cmd_num image_cam.handle arg))
  else if cmd_num = CommandNames.image_size ∨ cmd_num = CommandNames.image_ofst then
    let p := zmsg_popstr l.message
    match l.argument, p.1 with
    | some argument, some arg2 =>
      let arg := Arg.pair (atol argument) (atol arg2)
      Except.ok (d.allied_set w.log cmd_num image_cam.handle arg, image_cam, p.2,
        w.call (Call.set cmd_num image_cam.handle arg))
    | _, _ => Except.error Fault.null_pointer
  else if cmd_num = CommandNames.adio_bit then
    match l.argument with
    | none => Except.error Fault.null_pointer
    | some argument =>
      Except.ok (l.err, { image_cam with adio_bit := long_to_int (atol argument) }, l.message, w)
  else
    Except.ok (VmbErrorWrongType, image_cam, l.message, w)

/-- The `switch (cmd_num)` of a `get` request on the copy `image_cam`: the new
status, the reply text and the world. -/
def get_switch (lib : Libs) (d : Driver) (image_cam : ImageCam) (cmd_num : Int)
    (l : Locals) (w : World) : Except Fault (VmbError_t × String × World) :=
  let w1 := w.call (Call.get cmd_num image_cam.handle)
  if cmd_num = CommandNames.image_format ∨ cmd_num = CommandNames.sensor_bit_depth
      ∨ cmd_num = CommandNames.trigline ∨ cmd_num = CommandNames.trigline_src then
    -- GET_CASE_STR
    let r := d.allied_get_str w.log cmd_num image_cam.handle
    match r.2 with
    | none => Except.error Fault.null_pointer
    | some garg => Except.ok (r.1, garg, w1)
  else if cmd_num = CommandNames.exposure_us ∨ cmd_num = CommandNames.acq_framerate then
    -- GET_CASE_DBL
    let r := d.allied_get_dbl w.log cmd_num image_cam.handle
    Except.ok (r.1, lib.format_f6 r.2, w1)
  else if cmd_num = CommandNames.acq_framerate_auto then
    -- GET_CASE_BOOL
    let r := d.allied_get_bool w.log cmd_num image_cam.handle
    Except.ok (r.1, if r.2 = 1 then "True" else "False", w1)
  else if cmd_num = CommandNames.throughput_limit then
    -- GET_CASE_INT
    let r := d.allied_get_int w.log cmd_num image_cam.handle
    Except.ok (r.1, to_string r.2, w1)
  else if cmd_num = CommandNames.sensor_size ∨ cmd_num = CommandNames.image_size
      ∨ cmd_num = CommandNames.image_ofst then
    let r := d.allied_get_pair w.log cmd_num image_cam.handle
    Except.ok (r.1, to_string r.2.1 ++ "x" ++ to_string r.2.2, w1)
  else if cmd_num = CommandNames.adio_bit then
    Except.ok (l.err, to_string image_cam.adio_bit, w)
  else if cmd_num = CommandNames.throughput_limit_range then
    let r := d.allied_get_pair w.log cmd_num image_cam.handle
    Except.ok (r.1, "[" ++ to_string r.2.1 ++ ", " ++ to_string r.2.2 ++ "]", w1)
  else
    Except.ok (VmbErrorWrongType, l.reply, w)

/-- Lines 639 to 752: `atol(command)`, then the `set` or the `get` dispatch on
a copy of the session found in the registry; the copy is destroyed at the end
of its block. -/
def dispatch (lib : Libs) (d : Driver) (l : Locals) (sv : Server) :
    Except Fault (Locals × Server) :=
  match atol_ptr l.command with
  | Except.error e => Except.error e
  | Except.ok cmd_num =>
    if l.set_cmd then
      match l.cam_id with
      | none => Except.error Fault.null_pointer
      | some id =>
        match map_at sv.imagecams (lib.hash32 id) with
        | none => Except.ok ({ l with err := VmbErrorNotFound }, sv)
        | some image_cam =>
          match set_switch lib d image_cam cmd_num l sv.world with
          | Except.error e => Except.error e
          | Except.ok r =>
            Except.ok ({ l with err := r.1, message := r.2.2.1 },
                       { sv with world := r.2.1.destroy d r.2.2.2 })
    else if l.get_cmd then
      match l.cam_id with
      | none => Except.error Fault.null_pointer
      | some id =>
        match map_at sv.imagecams (lib.hash32 id) with
        | none => Except.ok ({ l with err := VmbErrorNotFound }, sv)
        | some image_cam =>
          match get_switch lib d image_cam cmd_num l sv.world with
          | Except.error e => Except.error e
          | Except.ok r =>
            Except.ok ({ l with err := r.1, reply := r.2.1 },
                       { sv with world := image_cam.destroy d r.2.2 })
    else Except.ok (l, sv)

/-- Lines 753 to 768: the frames of the reply, front first. -/
def encode_reply (l : Locals) : List String :=
  let ack_nac := if l.err ≠ VmbErrorSuccess then "NAC" else "ACK"
  let ack : List String := []
  let ack := zmsg_pushstr ack ack_nac
  let ack := zmsg_pushstr ack (to_string l.err)
  let ack := zmsg_pushstr ack l.reply
  let ack := zmsg_pushstr ack l.cmd_type
  match l.cam_id with
  | none => ack
  | some cam_id =>
    let ack := zmsg_pushstr ack cam_id
    match l.command with
    | none => ack
    | some command => zmsg_pushstr ack command

/-- Lines 753 to 769: build the reply and send it. -/
def send_reply (l : Locals) (sv : Server) : Server :=
  { sv with world := sv.world.send (encode_reply l) }

/-- One iteration of the `while (!done)` loop on a received message. -/
def loop_body (lib : Libs) (d : Driver) (sv : Server) (message : List String) :
    Except Fault Server :=
  match decode lib d sv message with
  | Except.error e => Except.error e
  | Except.ok (l, sv1) =>
    match dispatch lib d l sv1 with
    | Except.error e => Except.error e
    | Except.ok (l2, sv2) => Except.ok (send_reply l2 sv2)

/-! ## Concrete surroundings for evaluation -/

/-- A hash for evaluation: the 32-bit polynomial hash of the characters. -/
def sample_hash (s : String) : Nat :=
  s.toList.foldl (fun h c => (h * 31 + c.toNat) % 2 ^ 32) 7

/-- Library functions for evaluation. -/
def sample_libs : Libs :=
  { get_hash := sample_hash, atof := fun s => Double.mk s.length,
    format_f6 := fun x => to_string_nat x.bits ++ ".000000" }

/-- A driver for evaluation: every call succeeds; a frame is 640 by 480. -/
def sample_driver : Driver :=
  { allied_open_camera := fun log _ => (VmbErrorSuccess, some (log.length + 1)),
    allied_start_capture := fun _ _ => VmbErrorSuccess,
    allied_stop_capture := fun _ _ => VmbErrorSuccess,
    allied_close_camera := fun _ _ => none,
    allied_set := fun _ _ _ _ => VmbErrorSuccess,
    allied_get_str := fun _ _ _ => (VmbErrorSuccess, some "Mono8"),
    allied_get_dbl := fun _ _ _ => (VmbErrorSuccess, Double.mk 0),
    allied_get_bool := fun _ _ _ => (VmbErrorSuccess, 1),
    allied_get_int := fun _ _ _ => (VmbErrorSuccess, 1000),
    allied_get_pair := fun _ cmd _ =>
      if cmd = CommandNames.throughput_limit_range then (VmbErrorSuccess, 1000, 450000000)
      else (VmbErrorSuccess, 640, 480) }

/-- The world before the first call. -/
def World.empty : World :=
  { log := [], sent := [] }

/-- A session as the constructor leaves it, with camera handle 1 and
digital-I/O handle 1. -/
def sample_cam : ImageCam :=
  { handle := some 1, adio_hdl := some 1, info := { idstr := "camA" } }

/-- A server with the one camera `camA`. -/
def sample_server : Server :=
  { done := false, camids := [sample_libs.hash32 "camA"],
    imagecams := [(sample_libs.hash32 "camA", sample_cam)], world := World.empty }

/-- A server with no camera. -/
def empty_server : Server :=
  { done := false, camids := [], imagecams := [], world := World.empty }


/-! ## Vocabulary of the statements -/

/-- A driver getter or setter. -/
def Call.is_accessor : Call → Bool
  | Call.set _ _ _ => true
  | Call.get _ _ => true
  | _ => false

/-- The case labels of the `switch` of a `get` request. -/
def get_codes : List Int :=
  [CommandNames.image_format, CommandNames.sensor_bit_depth, CommandNames.trigline,
   CommandNames.trigline_src, CommandNames.exposure_us, CommandNames.acq_framerate,
   CommandNames.acq_framerate_auto, CommandNames.throughput_limit, CommandNames.sensor_size,
   CommandNames.image_size, CommandNames.image_ofst, CommandNames.adio_bit,
   CommandNames.throughput_limit_range]

/-- The case labels of the `switch` of a `set` request. -/
def set_codes : List Int :=
  [CommandNames.image_format, CommandNames.sensor_bit_depth, CommandNames.trigline,
   CommandNames.trigline_src, CommandNames.exposure_us, CommandNames.acq_framerate,
   CommandNames.acq_framerate_auto, CommandNames.throughput_limit, CommandNames.image_size,
   CommandNames.image_ofst, CommandNames.adio_bit]

/-- The tag that goes with a status. -/
def ack_tag (err : VmbError_t) : String :=
  if err ≠ VmbErrorSuccess then "NAC" else "ACK"

/-- The value `SET_CASE_BOOL` hands to the setter: a copy of the argument is
lower-cased character by character and compared with `true`. -/
def set_case_bool_arg (argument : String) : Bool :=
  String.mk (argument.toList.map tolower) == "true"

/-- The reading of a truthy argument in the specification: exactly the four
letters t, r, u, e, each of them in lower or in upper case. -/
def is_true_ignoring_case (s : String) : Bool :=
  match s.toList with
  | [a, b, c, e] =>
    (a == 't' || a == 'T') && (b == 'r' || b == 'R') && (c == 'u' || c == 'U')
      && (e == 'e' || e == 'E')
  | _ => false

/-- The state of `main` when the enumeration loop starts: nothing registered,
`done` not set. -/
def Server.initial (w : World) : Server :=
  { done := false, camids := [], imagecams := [], world := w }

/-- Two cameras as the driver lists them, for evaluation. -/
def sample_infos : List CameraInfo :=
  [{ idstr := "camA" }, { idstr := "camB" }]

/-! ## Lemmas on the decoder -/

theorem decode_get (lib : Libs) (d : Driver) (sv : Server) (m : List String) :
    decode lib d sv ("get" :: m) =
      Except.ok ({ cmd_type := "get", cam_id := (zmsg_popstr m).1,
                   command := (zmsg_popstr (zmsg_popstr m).2).1, get_cmd := true,
                   message := (zmsg_popstr (zmsg_popstr m).2).2 }, sv) := by
  simp [decode, zmsg_popstr]

theorem decode_set (lib : Libs) (d : Driver) (sv : Server) (m : List String) :
    decode lib d sv ("set" :: m) =
      Except.ok ({ cmd_type := "set", cam_id := (zmsg_popstr m).1,
                   command := (zmsg_popstr (zmsg_popstr m).2).1,
                   argument := (zmsg_popstr (zmsg_popstr (zmsg_popstr m).2).2).1,
                   set_cmd := true,
                   message := (zmsg_popstr (zmsg_popstr (zmsg_popstr m).2).2).2 }, sv) := by
  simp [decode, zmsg_popstr]

theorem single_camera_command (lib : Libs) (d : Driver)
    (op : Driver → ImageCam → World → VmbError_t × ImageCam × World)
    (l l1 : Locals) (sv sv1 : Server)
    (h : single_camera lib d op l sv = Except.ok (l1, sv1)) : l1.command = l.command := by
  unfold single_camera at h
  split at h
  · cases h
  · split at h <;> (cases h; rfl)

/-- Outside `get` and `set` no branch of the decoder assigns `command`. -/
theorem decode_command_none (lib : Libs) (d : Driver) (sv sv1 : Server) (cmd_type : String)
    (m : List String) (l : Locals) (hg : cmd_type ≠ "get") (hs : cmd_type ≠ "set")
    (h : decode lib d sv (cmd_type :: m) = Except.ok (l, sv1)) : l.command = none := by
  simp only [decode, zmsg_popstr] at h
  split_ifs at h
  · cases h; rfl
  · cases h; rfl
  · cases h; rfl
  · cases h; rfl
  · rw [single_camera_command lib d _ _ _ _ _ h]
  · rw [single_camera_command lib d _ _ _ _ _ h]
  · cases h; rfl

/-- A verb other than `get` and `set` never reaches the reply: `command` is
still `NULL` at `atol(command)`. -/
theorem loop_body_not_get_set (lib : Libs) (d : Driver) (sv : Server) (cmd_type : String)
    (m : List String) (hg : cmd_type ≠ "get") (hs : cmd_type ≠ "set") :
    loop_body lib d sv (cmd_type :: m) = Except.error Fault.null_pointer := by
  unfold loop_body
  cases hd : decode lib d sv (cmd_type :: m) with
  | error e => cases e; rfl
  | ok p =>
    obtain ⟨l, sv1⟩ := p
    have hc := decode_command_none lib d sv sv1 cmd_type m l hg hs hd
    simp [dispatch, hc, atol_ptr]

/-! ## Lemmas on the pieces of an iteration -/

theorem call_sent (w : World) (c : Call) : (w.call c).sent = w.sent := rfl

theorem destroy_sent (d : Driver) (cam : ImageCam) (w : World) :
    (cam.destroy d w).sent = w.sent := by
  unfold ImageCam.destroy ImageCam.close_camera ImageCam.cleanup
  split <;> rfl

/-- A session that was never opened through `open_camera` is destroyed without a
driver call. -/
theorem destroy_not_opened (d : Driver) (cam : ImageCam) (w : World)
    (h : cam.opened = false) : cam.destroy d w = w := by
  simp [ImageCam.destroy, ImageCam.close_camera, ImageCam.cleanup, h]

theorem set_switch_sent (lib : Libs) (d : Driver) (cam : ImageCam) (cmd_num : Int)
    (l : Locals) (w : World) (r : VmbError_t × ImageCam × List String × World)
    (h : set_switch lib d cam cmd_num l w = Except.ok r) : r.2.2.2.sent = w.sent := by
  unfold set_switch at h
  split_ifs at h
  all_goals first
    | (cases h; rfl)
    | (try dsimp only at h
       split at h <;> first | (cases h; rfl) | cases h)

theorem get_switch_sent (lib : Libs) (d : Driver) (cam : ImageCam) (cmd_num : Int)
    (l : Locals) (w : World) (r : VmbError_t × String × World)
    (h : get_switch lib d cam cmd_num l w = Except.ok r) : r.2.2.sent = w.sent := by
  unfold get_switch at h
  split_ifs at h
  all_goals first
    | (cases h; rfl)
    | (try dsimp only at h
       split at h <;> first | (cases h; rfl) | cases h)

/-- What `dispatch` leaves alone: the registry, the list of keys, the flag
`done`, the replies sent, and the echoed fields; only a `get` writes `reply`. -/
theorem dispatch_frame (lib : Libs) (d : Driver) (l l2 : Locals) (sv sv2 : Server)
    (h : dispatch lib d l sv = Except.ok (l2, sv2)) :
    sv2.world.sent = sv.world.sent ∧ sv2.imagecams = sv.imagecams ∧ sv2.camids = sv.camids
      ∧ sv2.done = sv.done ∧ l2.cmd_type = l.cmd_type ∧ l2.cam_id = l.cam_id
      ∧ l2.command = l.command ∧ (l2.reply = l.reply ∨ l.set_cmd = false) := by
  unfold dispatch at h
  split at h
  · cases h
  · split_ifs at h with hset hget
    · split at h
      · cases h
      · split at h
        · cases h; simp
        · split at h
          · cases h
          · rename_i r hr
            cases h
            simp [destroy_sent, set_switch_sent lib d _ _ _ _ r hr]
    · split at h
      · cases h
      · split at h
        · cases h; simp [hset]
        · split at h
          · cases h
          · rename_i r hr
            cases h
            simp [destroy_sent, get_switch_sent lib d _ _ _ _ r hr, hset]
    · cases h; simp


/-! ## Requests on a device that is not in the registry -/

/-- A `get` or a `set` on a device id that hashes to no key of the registry is
answered with the not-found status and the tag `NAC`; nothing else changes, so
no driver call is made. -/
theorem get_set_unknown_device (lib : Libs) (d : Driver) (sv : Server)
    (verb id command : String) (rest : List String) (hv : verb = "get" ∨ verb = "set")
    (h : map_at sv.imagecams (lib.hash32 id) = none) :
    loop_body lib d sv (verb :: id :: command :: rest) =
      Except.ok { sv with
        world := sv.world.send [command, id, verb, "None", to_string VmbErrorNotFound, "NAC"] } := by
  rcases hv with rfl | rfl
  · simp [loop_body, decode_get, dispatch, atol_ptr, zmsg_popstr, h, send_reply, encode_reply,
      zmsg_pushstr]
  · simp [loop_body, decode_set, dispatch, atol_ptr, zmsg_popstr, h, send_reply, encode_reply,
      zmsg_pushstr]

/-- C1 (code defect).  For `start_capture` and `stop_capture` on a device id
that hashes to no key of the registry, the decoder does set the not-found
status, but the iteration then stops at `atol(command)` with `command` still
`NULL`: it does not complete and no reply is sent. -/
theorem capture_unknown_device_faults (lib : Libs) (d : Driver) (sv : Server)
    (verb id : String) (rest : List String)
    (hv : verb = "start_capture" ∨ verb = "stop_capture")
    (h : map_at sv.imagecams (lib.hash32 id) = none) :
    decode lib d sv (verb :: id :: rest) =
        Except.ok ({ cmd_type := verb, cam_id := some id, err := VmbErrorNotFound,
                     message := rest }, sv)
      ∧ loop_body lib d sv (verb :: id :: rest) = Except.error Fault.null_pointer := by
  constructor
  · rcases hv with rfl | rfl <;> simp [decode, zmsg_popstr, single_camera, h]
  · apply loop_body_not_get_set <;> rcases hv with rfl | rfl <;> decide

/-- C1, evaluated: `start_capture` for the unknown id `camZ` on the server that
knows `camA`. -/
theorem capture_unknown_device_faults_witness :
    map_at sample_server.imagecams (sample_libs.hash32 "camZ") = none
      ∧ loop_body sample_libs sample_driver sample_server ["start_capture", "camZ"] =
          Except.error Fault.null_pointer :=
  ⟨by decide,
   (capture_unknown_device_faults sample_libs sample_driver sample_server "start_capture" "camZ"
      [] (Or.inl rfl) (by decide)).2⟩


/-! ## Unregistered command codes -/

/-- The destructor of a session calls no getter and no setter. -/
theorem destroy_accessors (d : Driver) (cam : ImageCam) (w : World) :
    (cam.destroy d w).log.filter Call.is_accessor = w.log.filter Call.is_accessor := by
  unfold ImageCam.destroy ImageCam.close_camera ImageCam.cleanup
  split <;> simp [World.call, Call.is_accessor]

/-- C2 (counterexample).  A `get` with the unregistered code 999 on the unknown
device `camZ` is answered with the not-found status `-3`, not with the
wrong-type status `-10`. -/
theorem unregistered_code_unknown_device_counterexample :
    atol "999" ∉ get_codes
      ∧ loop_body sample_libs sample_driver sample_server ["get", "camZ", "999"] =
          Except.ok { sample_server with
            world := World.empty.send ["999", "camZ", "get", "None", "-3", "NAC"] }
      ∧ to_string VmbErrorWrongType = "-10" :=
  ⟨by decide, by rfl, by rfl⟩

/-- C2 (amended).  On a device that is in the registry, a `get` whose command
code is no case label of the `get` switch, and a `set` whose command code is no
case label of the `set` switch, are answered with the wrong-type status and the
tag `NAC`, the result staying `None`; the registry is unchanged and no driver
getter or setter is called. -/
theorem unregistered_code_wrong_type (lib : Libs) (d : Driver) (sv : Server)
    (id command : String) (rest : List String) (cam : ImageCam)
    (h : map_at sv.imagecams (lib.hash32 id) = some cam) :
    (atol command ∉ get_codes →
      ∃ sv1, loop_body lib d sv ("get" :: id :: command :: rest) = Except.ok sv1
        ∧ sv1.world.sent = sv.world.sent ++
            [[command, id, "get", "None", to_string VmbErrorWrongType, "NAC"]]
        ∧ sv1.imagecams = sv.imagecams
        ∧ sv1.world.log.filter Call.is_accessor = sv.world.log.filter Call.is_accessor)
    ∧ (atol command ∉ set_codes →
      ∃ sv1, loop_body lib d sv ("set" :: id :: command :: rest) = Except.ok sv1
        ∧ sv1.world.sent = sv.world.sent ++
            [[command, id, "set", "None", to_string VmbErrorWrongType, "NAC"]]
        ∧ sv1.imagecams = sv.imagecams
        ∧ sv1.world.log.filter Call.is_accessor = sv.world.log.filter Call.is_accessor) := by
  constructor
  · intro hc
    simp only [get_codes, List.mem_cons, List.mem_singleton, List.not_mem_nil, not_or,
      or_false] at hc
    simp [loop_body, decode_get, dispatch, atol_ptr, zmsg_popstr, h, get_switch, hc,
      send_reply, encode_reply, zmsg_pushstr, World.send, destroy_sent, destroy_accessors]
  · intro hc
    simp only [set_codes, List.mem_cons, List.mem_singleton, List.not_mem_nil, not_or,
      or_false] at hc
    simp [loop_body, decode_set, dispatch, atol_ptr, zmsg_popstr, h, set_switch, hc,
      send_reply, encode_reply, zmsg_pushstr, World.send, destroy_sent, destroy_accessors]

/-- C2 (amended), evaluated on `camA`: the code 999 for `get`, and the get-only
code 202 for `set`. -/
theorem unregistered_code_wrong_type_witness :
    map_at sample_server.imagecams (sample_libs.hash32 "camA") = some sample_cam
      ∧ (∃ sv1, loop_body sample_libs sample_driver sample_server ["get", "camA", "999"]
            = Except.ok sv1
          ∧ sv1.world.sent = sample_server.world.sent ++
              [["999", "camA", "get", "None", to_string VmbErrorWrongType, "NAC"]]
          ∧ sv1.imagecams = sample_server.imagecams
          ∧ sv1.world.log.filter Call.is_accessor
              = sample_server.world.log.filter Call.is_accessor)
      ∧ (∃ sv1, loop_body sample_libs sample_driver sample_server ["set", "camA", "202", "1"]
            = Except.ok sv1
          ∧ sv1.world.sent = sample_server.world.sent ++
              [["202", "camA", "set", "None", to_string VmbErrorWrongType, "NAC"]]
          ∧ sv1.imagecams = sample_server.imagecams
          ∧ sv1.world.log.filter Call.is_accessor
              = sample_server.world.log.filter Call.is_accessor) :=
  ⟨by decide,
   (unregistered_code_wrong_type sample_libs sample_driver sample_server "camA" "999" []
      sample_cam (by decide)).1 (by decide),
   (unregistered_code_wrong_type sample_libs sample_driver sample_server "camA" "202" ["1"]
      sample_cam (by decide)).2 (by decide)⟩

/-! ## Requests without a command code -/

/-- Without a command code frame the iteration stops at `atol(command)`. -/
theorem loop_body_no_command (lib : Libs) (d : Driver) (sv : Server)
    (cmd_type : String) (m : List String)
    (h : (cmd_type ≠ "get" ∧ cmd_type ≠ "set") ∨ m.length < 2) :
    loop_body lib d sv (cmd_type :: m) = Except.error Fault.null_pointer := by
  by_cases hg : cmd_type = "get"
  · subst hg
    have hm : m.length < 2 := by
      rcases h with h | h
      · exact absurd rfl h.1
      · exact h
    match m, hm with
    | [], _ => simp [loop_body, decode_get, dispatch, atol_ptr, zmsg_popstr]
    | [_], _ => simp [loop_body, decode_get, dispatch, atol_ptr, zmsg_popstr]
  · by_cases hs : cmd_type = "set"
    · subst hs
      have hm : m.length < 2 := by
        rcases h with h | h
        · exact absurd rfl h.2
        · exact h
      match m, hm with
      | [], _ => simp [loop_body, decode_set, dispatch, atol_ptr, zmsg_popstr]
      | [_], _ => simp [loop_body, decode_set, dispatch, atol_ptr, zmsg_popstr]
    · exact loop_body_not_get_set lib d sv cmd_type m hg hs

/-- C3 (code defect).  A message whose verb is not `get` or `set`, or that has
fewer than two frames after the verb, leaves `command` at `NULL`; the
iteration stops at `atol(command)` and sends no reply. -/
theorem request_without_command_faults (lib : Libs) (d : Driver) (sv : Server)
    (cmd_type : String) (m : List String)
    (h : (cmd_type ≠ "get" ∧ cmd_type ≠ "set") ∨ m.length < 2) :
    loop_body lib d sv (cmd_type :: m) = Except.error Fault.null_pointer :=
  loop_body_no_command lib d sv cmd_type m h

/-- C3, evaluated: the one-frame message `list`, and a `get` without its command
code. -/
theorem request_without_command_faults_witness :
    loop_body sample_libs sample_driver sample_server ["list"] = Except.error Fault.null_pointer
      ∧ loop_body sample_libs sample_driver sample_server ["get", "camA"]
          = Except.error Fault.null_pointer :=
  ⟨request_without_command_faults sample_libs sample_driver sample_server "list" []
     (Or.inl (by decide)),
   request_without_command_faults sample_libs sample_driver sample_server "get" ["camA"]
     (Or.inr (by decide))⟩


/-! ## The reply -/

/-- An iteration that returns went through the decoder, the dispatch and the
reply. -/
theorem loop_body_ok_inv (lib : Libs) (d : Driver) (sv sv1 : Server) (message : List String)
    (h : loop_body lib d sv message = Except.ok sv1) :
    ∃ l sv2 l3 sv3, decode lib d sv message = Except.ok (l, sv2)
      ∧ dispatch lib d l sv2 = Except.ok (l3, sv3) ∧ sv1 = send_reply l3 sv3 := by
  unfold loop_body at h
  split at h
  · cases h
  · rename_i l sv2 hd
    split at h
    · cases h
    · rename_i l3 sv3 hp
      cases h
      exact ⟨l, sv2, l3, sv3, hd, hp, rfl⟩

/-- Every iteration that returns served a `get` or a `set` with a device id and
a command code, and sent the six frames command code, device id, verb, result,
status, tag. -/
theorem loop_body_ok_shape (lib : Libs) (d : Driver) (sv sv1 : Server) (message : List String)
    (h : loop_body lib d sv message = Except.ok sv1) :
    ∃ verb id command rest result err,
      message = verb :: id :: command :: rest ∧ (verb = "get" ∨ verb = "set")
      ∧ sv1.world.sent = sv.world.sent ++
          [[command, id, verb, result, to_string err, ack_tag err]]
      ∧ (verb = "set" → result = "None") := by
  match message, h with
  | [], h => simp [loop_body, decode, zmsg_popstr] at h
  | [cmd_type], h => simp [loop_body_no_command lib d sv cmd_type [] (Or.inr (by simp))] at h
  | [cmd_type, a], h =>
    simp [loop_body_no_command lib d sv cmd_type [a] (Or.inr (by simp))] at h
  | cmd_type :: id :: command :: rest, h =>
    by_cases hg : cmd_type = "get"
    · subst hg
      obtain ⟨l, sv2, l3, sv3, hd, hp, rfl⟩ := loop_body_ok_inv lib d sv sv1 _ h
      rw [decode_get] at hd
      cases hd
      obtain ⟨h1, -, -, -, h5, h6, h7, -⟩ := dispatch_frame lib d _ l3 _ sv3 hp
      refine ⟨"get", id, command, rest, l3.reply, l3.err, rfl, Or.inl rfl, ?_,
        fun hh => absurd hh (by decide)⟩
      simp [zmsg_popstr] at h5 h6 h7
      simp [send_reply, World.send, encode_reply, zmsg_pushstr, h1, h5, h6, h7,
        ack_tag]
    · by_cases hs : cmd_type = "set"
      · subst hs
        obtain ⟨l, sv2, l3, sv3, hd, hp, rfl⟩ := loop_body_ok_inv lib d sv sv1 _ h
        rw [decode_set] at hd
        cases hd
        obtain ⟨h1, -, -, -, h5, h6, h7, h8⟩ := dispatch_frame lib d _ l3 _ sv3 hp
        simp [zmsg_popstr] at h5 h6 h7 h8
        refine ⟨"set", id, command, rest, l3.reply, l3.err, rfl, Or.inr rfl, ?_, fun _ => h8⟩
        simp [send_reply, World.send, encode_reply, zmsg_pushstr, h1, h5, h6, h7,
          ack_tag]
      · simp [loop_body_not_get_set lib d sv cmd_type _ hg hs] at h


/-! ## Decimal text -/

theorem to_digits_length (fuel n : Nat) (acc : List Char) :
    acc.length + 1 ≤ (to_digits fuel n acc).length := by
  induction fuel generalizing n acc with
  | zero => simp [to_digits]
  | succ f ih =>
    unfold to_digits
    split
    · simp
    · have := ih (n / 10) (Char.ofNat (48 + n % 10) :: acc)
      simp at this
      omega

theorem to_string_nat_eq_zero (n : Nat) : to_string_nat n = "0" ↔ n = 0 := by
  constructor
  · intro h
    have hd : to_digits n n [] = [Char.ofNat 48] := by
      have := congrArg String.data h
      simpa [to_string_nat] using this
    cases n with
    | zero => rfl
    | succ k =>
      exfalso
      unfold to_digits at hd
      split at hd
      · rename_i hlt
        have hk : k < 9 := by omega
        simp only [List.cons.injEq, and_true] at hd
        have h2 := congrArg Char.toNat hd
        interval_cases k <;> simp at h2
      · have := to_digits_length k ((k + 1) / 10) [Char.ofNat (48 + (k + 1) % 10)]
        rw [hd] at this
        simp at this
  · rintro rfl
    rfl

theorem to_string_eq_zero (v : Int) : to_string v = "0" ↔ v = 0 := by
  cases v with
  | ofNat n =>
    simp only [to_string, to_string_nat_eq_zero]
    constructor
    · rintro rfl; rfl
    · intro h; exact Int.ofNat.inj h
  | negSucc n =>
    simp only [to_string]
    constructor
    · intro h
      have := congrArg String.data h
      simp [String.data_append] at this
    · intro h; cases h


/-! ## Order of the reply frames, and the tag -/

/-- The frames of a reply: the command code and the device id when there is a
device id, then verb, result, status and tag. -/
theorem encode_reply_eq (l : Locals) :
    encode_reply l =
      (match l.cam_id with
        | none => []
        | some cam_id => l.command.toList ++ [cam_id])
      ++ [l.cmd_type, l.reply, to_string l.err, ack_tag l.err] := by
  unfold encode_reply
  cases l.cam_id with
  | none => simp [zmsg_pushstr, ack_tag]
  | some cam_id => cases l.command <;> simp [zmsg_pushstr, ack_tag]

/-- C4 (counterexample).  The reply to `get camA 10` starts with the command
code `10`; the device id `camA` is the second frame. -/
theorem reply_order_counterexample :
    loop_body sample_libs sample_driver sample_server ["get", "camA", "10"] =
        Except.ok { sample_server with
          world := World.empty.send ["10", "camA", "get", "-1", "0", "ACK"] }
      ∧ ("10" : String) ≠ "camA" :=
  ⟨by rfl, by decide⟩

/-- C4 (amended).  The reply encoder puts, front to back, the command code (when
there are a device id and a command code), the device id (when there is one),
the verb, the result, the decimal status and the tag.  Every request that is
answered is a `get` or a `set` with both fields, so its reply is the six
frames command code, device id, verb, result, status, tag, in this order; the
result of a `set` is `None`. -/
theorem reply_frames_order (lib : Libs) (d : Driver) (sv sv1 : Server)
    (message : List String) (h : loop_body lib d sv message = Except.ok sv1) :
    (∀ l : Locals, encode_reply l =
        (match l.cam_id with
          | none => []
          | some cam_id => l.command.toList ++ [cam_id])
        ++ [l.cmd_type, l.reply, to_string l.err, ack_tag l.err])
    ∧ ∃ verb id command rest result err,
        message = verb :: id :: command :: rest
        ∧ sv1.world.sent = sv.world.sent ++
            [[command, id, verb, result, to_string err, ack_tag err]]
        ∧ (verb = "set" → result = "None") := by
  refine ⟨encode_reply_eq, ?_⟩
  obtain ⟨verb, id, command, rest, result, err, h1, -, h3, h4⟩ :=
    loop_body_ok_shape lib d sv sv1 message h
  exact ⟨verb, id, command, rest, result, err, h1, h3, h4⟩

/-- C4 (amended), evaluated on `get camA 200`. -/
theorem reply_frames_order_witness :
    loop_body sample_libs sample_driver sample_server ["get", "camA", "200"] =
        Except.ok { sample_server with
          world := { log := [Call.get 200 (some 1)],
                     sent := [["200", "camA", "get", "640x480", "0", "ACK"]] } }
      ∧ ∃ verb id command rest result err,
        ["get", "camA", "200"] = verb :: id :: command :: rest
        ∧ [["200", "camA", "get", "640x480", "0", "ACK"]] = sample_server.world.sent ++
            [[command, id, verb, result, to_string err, ack_tag err]]
        ∧ (verb = "set" → result = "None") :=
  ⟨by rfl,
   (reply_frames_order sample_libs sample_driver sample_server
      { sample_server with
          world := { log := [Call.get 200 (some 1)],
                     sent := [["200", "camA", "get", "640x480", "0", "ACK"]] } }
      ["get", "camA", "200"] (by rfl)).2⟩

/-- C5.  The reply encoder ends every reply with the decimal text of the status
and the tag, which is `ACK` exactly when the status is `VmbErrorSuccess` (0) and
`NAC` otherwise; and the reply sent by an iteration is such a reply: its last
two frames are the decimal text of a status `err` and a tag that is `ACK` if
and only if `err` is 0, `NAC` if and only if it is not, the status text being
`0` exactly for the status 0. -/
theorem ack_iff_status_zero (lib : Libs) (d : Driver) (sv sv1 : Server)
    (message : List String) (h : loop_body lib d sv message = Except.ok sv1) :
    (∀ l : Locals, ∃ front, encode_reply l = front ++ [to_string l.err, ack_tag l.err])
    ∧ ∃ front status ack err,
        sv1.world.sent = sv.world.sent ++ [front ++ [status, ack]]
        ∧ status = to_string err
        ∧ (ack = "ACK" ↔ err = VmbErrorSuccess)
        ∧ (ack = "NAC" ↔ err ≠ VmbErrorSuccess)
        ∧ (status = "0" ↔ err = VmbErrorSuccess) := by
  constructor
  · intro l
    refine ⟨(match l.cam_id with
        | none => []
        | some cam_id => l.command.toList ++ [cam_id]) ++ [l.cmd_type, l.reply], ?_⟩
    rw [encode_reply_eq]
    simp
  · obtain ⟨verb, id, command, rest, result, err, -, -, h3, -⟩ :=
      loop_body_ok_shape lib d sv sv1 message h
    refine ⟨[command, id, verb, result], to_string err, ack_tag err, err, ?_, rfl, ?_, ?_,
      to_string_eq_zero err⟩
    · simpa using h3
    · by_cases he : err = VmbErrorSuccess <;> simp [ack_tag, he]
    · by_cases he : err = VmbErrorSuccess <;> simp [ack_tag, he]

/-- C5, evaluated: a request that succeeds is tagged `ACK` with status text `0`,
and one on an unknown device is tagged `NAC` with status text `-3`. -/
theorem ack_iff_status_zero_witness :
    loop_body sample_libs sample_driver sample_server ["set", "camA", "300", "1000"] =
        Except.ok { sample_server with
          world := { log := [Call.set 300 (some 1) (Arg.int 1000)],
                     sent := [["300", "camA", "set", "None", "0", "ACK"]] } }
      ∧ loop_body sample_libs sample_driver sample_server ["set", "camZ", "300", "1000"] =
        Except.ok { sample_server with
          world := World.empty.send ["300", "camZ", "set", "None", "-3", "NAC"] }
      ∧ ∃ front status ack err,
        [["300", "camA", "set", "None", "0", "ACK"]] =
            sample_server.world.sent ++ [front ++ [status, ack]]
        ∧ status = to_string err
        ∧ (ack = "ACK" ↔ err = VmbErrorSuccess)
        ∧ (ack = "NAC" ↔ err ≠ VmbErrorSuccess)
        ∧ (status = "0" ↔ err = VmbErrorSuccess) :=
  ⟨by rfl, by rfl,
   (ack_iff_status_zero sample_libs sample_driver sample_server
      { sample_server with
          world := { log := [Call.set 300 (some 1) (Arg.int 1000)],
                     sent := [["300", "camA", "set", "None", "0", "ACK"]] } }
      ["set", "camA", "300", "1000"] (by rfl)).2⟩


/-! ## The signal bit -/

/-- C6 (code defect).  A `set` of code 10 on a device of the registry writes
`adio_bit` of a copy of the session (`ImageCam image_cam = imagecams.at(chash)`)
and the copy is dropped: the registry is unchanged, and the `get` of code 10
that follows returns the index the session had before, not the argument. -/
theorem set_adio_bit_not_stored (lib : Libs) (d : Driver) (sv : Server)
    (id argument : String) (cam : ImageCam)
    (h : map_at sv.imagecams (lib.hash32 id) = some cam) :
    ∃ sv1 sv2, loop_body lib d sv ["set", id, "10", argument] = Except.ok sv1
      ∧ sv1.imagecams = sv.imagecams
      ∧ loop_body lib d sv1 ["get", id, "10"] = Except.ok sv2
      ∧ sv2.world.sent = sv.world.sent ++
          [["10", id, "set", "None", "0", "ACK"],
           ["10", id, "get", to_string cam.adio_bit, "0", "ACK"]] := by
  have h10 : atol "10" = 10 := by decide
  simp [loop_body, decode_get, decode_set, dispatch, atol_ptr, zmsg_popstr, h, h10,
    set_switch, get_switch, send_reply, encode_reply, zmsg_pushstr, World.send, destroy_sent]
  rfl

/-- C6, evaluated: after `set camA 10 3` the reply to `get camA 10` is `-1`. -/
theorem set_adio_bit_not_stored_witness :
    map_at sample_server.imagecams (sample_libs.hash32 "camA") = some sample_cam
      ∧ ∃ sv1 sv2,
        loop_body sample_libs sample_driver sample_server ["set", "camA", "10", "3"]
          = Except.ok sv1
        ∧ sv1.imagecams = sample_server.imagecams
        ∧ loop_body sample_libs sample_driver sv1 ["get", "camA", "10"] = Except.ok sv2
        ∧ sv2.world.sent = sample_server.world.sent ++
            [["10", "camA", "set", "None", "0", "ACK"],
             ["10", "camA", "get", to_string sample_cam.adio_bit, "0", "ACK"]] :=
  ⟨by decide,
   set_adio_bit_not_stored sample_libs sample_driver sample_server "camA" "3" sample_cam
     (by decide)⟩

/-! ## Start and stop of the capture -/

/-- C7 (code defect).  `start_capture` never sets `capturing`: on a session with
a valid handle whose driver start succeeds, `running()` is still false after
the first call, and the second call in a row invokes `allied_start_capture`
again, so the callback is registered twice. -/
theorem start_capture_twice_registers_twice (d : Driver) (cam : ImageCam) (w : World)
    (hdl : Handle) (hh : cam.handle = some hdl) (hc : cam.capturing = false)
    (hd : ∀ log, d.allied_start_capture log (some hdl) = VmbErrorSuccess) :
    (cam.start_capture d w).1 = VmbErrorSuccess
      ∧ (cam.start_capture d w).2.1.running = false
      ∧ ((cam.start_capture d w).2.1.start_capture d (cam.start_capture d w).2.2).1
          = VmbErrorSuccess
      ∧ ((cam.start_capture d w).2.1.start_capture d (cam.start_capture d w).2.2).2.2.log
          = w.log ++ [Call.start_capture (some hdl), Call.start_capture (some hdl)] := by
  simp [ImageCam.start_capture, ImageCam.running, hh, hc, hd, World.call]

/-- C7, evaluated on the sample session. -/
theorem start_capture_twice_registers_twice_witness :
    sample_cam.handle = some 1 ∧ sample_cam.capturing = false
      ∧ (sample_cam.start_capture sample_driver World.empty).2.1.running = false
      ∧ ((sample_cam.start_capture sample_driver World.empty).2.1.start_capture sample_driver
            (sample_cam.start_capture sample_driver World.empty).2.2).2.2.log
          = [Call.start_capture (some 1), Call.start_capture (some 1)] :=
  ⟨rfl, rfl,
   (start_capture_twice_registers_twice sample_driver sample_cam World.empty 1 rfl rfl
      (fun _ => rfl)).2.1,
   (start_capture_twice_registers_twice sample_driver sample_cam World.empty 1 rfl rfl
      (fun _ => rfl)).2.2.2⟩

/-- C8.  On a session that is not capturing, or that has no driver handle,
`stop_capture` returns success and leaves the session and the world as they
were: no `allied_stop_capture`, no `WriteBit_aDIO`, and the capturing flag, the
toggle state and the bound signal bit keep their values. -/
theorem stop_capture_idle_is_noop (d : Driver) (cam : ImageCam) (w : World)
    (h : cam.capturing = false ∨ cam.handle = none) :
    cam.stop_capture d w = (VmbErrorSuccess, cam, w) := by
  unfold ImageCam.stop_capture
  rcases h with h | h
  · cases hh : cam.handle <;> simp [h]
  · simp [h]

/-- C8, evaluated: a session that is not capturing with a bit bound, and a
capturing session without handle. -/
theorem stop_capture_idle_is_noop_witness :
    ImageCam.stop_capture sample_driver { sample_cam with adio_bit := 3, state := 255 }
        World.empty
      = (VmbErrorSuccess, { sample_cam with adio_bit := 3, state := 255 }, World.empty)
    ∧ ImageCam.stop_capture sample_driver { sample_cam with capturing := true, handle := none }
        World.empty
      = (VmbErrorSuccess, { sample_cam with capturing := true, handle := none }, World.empty) :=
  ⟨stop_capture_idle_is_noop sample_driver { sample_cam with adio_bit := 3, state := 255 }
     World.empty (Or.inl rfl),
   stop_capture_idle_is_noop sample_driver { sample_cam with capturing := true, handle := none }
     World.empty (Or.inr rfl)⟩


/-! ## The acquisition callback -/

theorem not_uchar_eq (x : Nat) (h : x < 256) : not_uchar x = 255 - x := by
  unfold not_uchar
  omega

/-- C9 (counterexample).  From the default state 0, with bit 3 bound, one
callback leaves the state at 255 and writes 255, not 1. -/
theorem callback_counterexample :
    ImageCam.Callback { sample_cam with adio_bit := 3 } World.empty =
        ({ sample_cam with adio_bit := 3, state := 255 },
         { log := [Call.WriteBit_aDIO 1 0 3 255], sent := [] })
      ∧ (255 : Nat) ≠ 1 :=
  ⟨by decide, by decide⟩

/-- C9 (amended).  On a session with a signal-driver handle and a bound bit
(index at least 0), one callback replaces the toggle state, a byte, by its
bitwise complement `255 - state` (0 becomes 255, 255 becomes 0) and makes
exactly one `WriteBit_aDIO` of the new state to the bound bit of port 0; two
callbacks in a row restore the session.  Without a bound bit or without a
signal-driver handle the callback changes nothing and writes nothing. -/
theorem callback_complements_state (cam : ImageCam) (w : World) (hs : cam.state < 256) :
    (∀ dev, cam.adio_hdl = some dev → 0 ≤ cam.adio_bit →
      cam.Callback w =
          ({ cam with state := 255 - cam.state },
           w.call (Call.WriteBit_aDIO dev 0 cam.adio_bit (255 - cam.state)))
        ∧ ImageCam.Callback (cam.Callback w).1 (cam.Callback w).2 =
          (cam, (w.call (Call.WriteBit_aDIO dev 0 cam.adio_bit (255 - cam.state))).call
                  (Call.WriteBit_aDIO dev 0 cam.adio_bit cam.state)))
    ∧ ((cam.adio_hdl = none ∨ cam.adio_bit < 0) → cam.Callback w = (cam, w)) := by
  constructor
  · intro dev hdev hbit
    have h1 : cam.Callback w =
        ({ cam with state := 255 - cam.state },
         w.call (Call.WriteBit_aDIO dev 0 cam.adio_bit (255 - cam.state))) := by
      simp [ImageCam.Callback, hdev, hbit, not_uchar_eq _ hs]
    refine ⟨h1, ?_⟩
    rw [h1]
    have h2 : 255 - (255 - cam.state) = cam.state := by omega
    have h3 : 255 - cam.state < 256 := by omega
    simp [ImageCam.Callback, hdev, hbit, not_uchar_eq _ h3, h2]
    rw [← hdev]
  · rintro (h | h)
    · simp [ImageCam.Callback, h]
    · have : ¬ 0 ≤ cam.adio_bit := by omega
      cases hh : cam.adio_hdl <;> simp [ImageCam.Callback, hh, this]

/-- C9 (amended), evaluated: from state 0 with bit 3 bound the callback writes
255 and the next one writes 0; with no bit bound nothing happens. -/
theorem callback_complements_state_witness :
    ({ sample_cam with adio_bit := 3 } : ImageCam).state < 256
      ∧ ImageCam.Callback { sample_cam with adio_bit := 3 } World.empty =
          ({ sample_cam with adio_bit := 3, state := 255 },
           World.empty.call (Call.WriteBit_aDIO 1 0 3 255))
      ∧ ImageCam.Callback
          (ImageCam.Callback { sample_cam with adio_bit := 3 } World.empty).1
          (ImageCam.Callback { sample_cam with adio_bit := 3 } World.empty).2 =
          ({ sample_cam with adio_bit := 3 },
           (World.empty.call (Call.WriteBit_aDIO 1 0 3 255)).call (Call.WriteBit_aDIO 1 0 3 0))
      ∧ ImageCam.Callback sample_cam World.empty = (sample_cam, World.empty) :=
  ⟨by decide,
   ((callback_complements_state { sample_cam with adio_bit := 3 } World.empty
      (by decide)).1 1 rfl (by decide)).1,
   ((callback_complements_state { sample_cam with adio_bit := 3 } World.empty
      (by decide)).1 1 rfl (by decide)).2,
   (callback_complements_state sample_cam World.empty (by decide)).2 (Or.inr (by decide))⟩

/-! ## Two-valued results -/

/-- C10 (counterexample).  The reply to `get camA 200`, the driver reporting 640
and 480, carries `640x480`, without blanks around the `x`. -/
theorem get_image_size_counterexample :
    loop_body sample_libs sample_driver sample_server ["get", "camA", "200"] =
        Except.ok { sample_server with
          world := { log := [Call.get 200 (some 1)],
                     sent := [["200", "camA", "get", "640x480", "0", "ACK"]] } }
      ∧ sample_driver.allied_get_pair [] 200 (some 1) = (VmbErrorSuccess, 640, 480)
      ∧ ("640x480" : String) ≠ "640 x 480" :=
  ⟨by rfl, by rfl, by decide⟩

/-- C10 (amended).  A `get` on a device of the registry for image size (200),
image offset (201) or sensor size (202) replies the decimal text of the first
integer the driver returns, then `x` with no blank, then the decimal text of
the second; for the throughput-limit range (301) it replies `[`, the decimal
minimum, a comma and a blank, the decimal maximum, `]`.  The status of the
reply is the status of the driver call. -/
theorem get_pair_format (lib : Libs) (d : Driver) (sv : Server)
    (id command : String) (rest : List String) (cam : ImageCam)
    (h : map_at sv.imagecams (lib.hash32 id) = some cam) :
    ((atol command = 200 ∨ atol command = 201 ∨ atol command = 202) →
      ∃ sv1, loop_body lib d sv ("get" :: id :: command :: rest) = Except.ok sv1
        ∧ sv1.world.sent = sv.world.sent ++
            [[command, id, "get",
              to_string (d.allied_get_pair sv.world.log (atol command) cam.handle).2.1 ++ "x"
                ++ to_string (d.allied_get_pair sv.world.log (atol command) cam.handle).2.2,
              to_string (d.allied_get_pair sv.world.log (atol command) cam.handle).1,
              ack_tag (d.allied_get_pair sv.world.log (atol command) cam.handle).1]])
    ∧ (atol command = 301 →
      ∃ sv1, loop_body lib d sv ("get" :: id :: command :: rest) = Except.ok sv1
        ∧ sv1.world.sent = sv.world.sent ++
            [[command, id, "get",
              "[" ++ to_string (d.allied_get_pair sv.world.log 301 cam.handle).2.1 ++ ", "
                ++ to_string (d.allied_get_pair sv.world.log 301 cam.handle).2.2 ++ "]",
              to_string (d.allied_get_pair sv.world.log 301 cam.handle).1,
              ack_tag (d.allied_get_pair sv.world.log 301 cam.handle).1]]) := by
  constructor
  · intro hc
    rcases hc with hc | hc | hc <;>
      simp [loop_body, decode_get, dispatch, atol_ptr, zmsg_popstr, h, get_switch, hc,
        send_reply, encode_reply, zmsg_pushstr, World.send, destroy_sent, World.call, ack_tag]
  · intro hc
    simp [loop_body, decode_get, dispatch, atol_ptr, zmsg_popstr, h, get_switch, hc,
      send_reply, encode_reply, zmsg_pushstr, World.send, destroy_sent, World.call, ack_tag]

/-- C10 (amended), evaluated on `camA`: `640x480` for code 200 and
`[1000, 450000000]` for code 301. -/
theorem get_pair_format_witness :
    map_at sample_server.imagecams (sample_libs.hash32 "camA") = some sample_cam
      ∧ (∃ sv1, loop_body sample_libs sample_driver sample_server ["get", "camA", "200"]
            = Except.ok sv1
          ∧ sv1.world.sent = [["200", "camA", "get", "640x480", "0", "ACK"]])
      ∧ (∃ sv1, loop_body sample_libs sample_driver sample_server ["get", "camA", "301"]
            = Except.ok sv1
          ∧ sv1.world.sent = [["301", "camA", "get", "[1000, 450000000]", "0", "ACK"]]) :=
  ⟨by decide,
   (get_pair_format sample_libs sample_driver sample_server "camA" "200" [] sample_cam
      (by decide)).1 (Or.inl (by decide)),
   (get_pair_format sample_libs sample_driver sample_server "camA" "301" [] sample_cam
      (by decide)).2 (by decide)⟩


/-! ## Boolean arguments -/

theorem char_eq_iff_toNat (a b : Char) : a = b ↔ a.toNat = b.toNat :=
  ⟨fun h => h ▸ rfl, fun h => by rw [← Char.ofNat_toNat a, ← Char.ofNat_toNat b, h]⟩

theorem toNat_ofNat_small (m : Nat) (hm : m ≤ 122) : (Char.ofNat m).toNat = m := by
  interval_cases m <;> rfl

/-- `tolower` gives the lower-case letter numbered `n` exactly on that letter
and on its upper-case form. -/
theorem tolower_eq_iff (c : Char) (n : Nat) (h1 : 97 ≤ n) (h2 : n ≤ 122) :
    tolower c = Char.ofNat n ↔ (c = Char.ofNat n ∨ c = Char.ofNat (n - 32)) := by
  simp only [char_eq_iff_toNat, toNat_ofNat_small n h2, toNat_ofNat_small (n - 32) (by omega)]
  unfold tolower
  split
  · rename_i h
    rw [toNat_ofNat_small _ (by omega)]
    omega
  · omega

theorem set_case_bool_arg_eq (argument : String) :
    set_case_bool_arg argument = is_true_ignoring_case argument := by
  have ht := fun c => tolower_eq_iff c 116 (by decide) (by decide)
  have hr := fun c => tolower_eq_iff c 114 (by decide) (by decide)
  have hu := fun c => tolower_eq_iff c 117 (by decide) (by decide)
  have he := fun c => tolower_eq_iff c 101 (by decide) (by decide)
  unfold set_case_bool_arg is_true_ignoring_case
  have hs : ∀ x : List Char, (String.mk x = "true") ↔ x = [Char.ofNat 116, Char.ofNat 114,
      Char.ofNat 117, Char.ofNat 101] := by
    intro x
    constructor
    · intro h; exact congrArg String.data h
    · intro h; rw [h]
  have c1 : (Char.ofNat 116 = 't') ∧ (Char.ofNat (116 - 32) = 'T') := by decide
  have c2 : (Char.ofNat 114 = 'r') ∧ (Char.ofNat (114 - 32) = 'R') := by decide
  have c3 : (Char.ofNat 117 = 'u') ∧ (Char.ofNat (117 - 32) = 'U') := by decide
  have c4 : (Char.ofNat 101 = 'e') ∧ (Char.ofNat (101 - 32) = 'E') := by decide
  rcases argument with ⟨l⟩
  rw [Bool.eq_iff_iff]
  match l with
  | [] => simp [hs]
  | [_] => simp [hs]
  | [_, _] => simp [hs]
  | [_, _, _] => simp [hs]
  | [a, b, c, e] =>
    simp only [beq_iff_eq, hs, List.map, List.cons.injEq, and_true, ht, hr, hu, he, c1.1, c1.2,
      c2.1, c2.2, c3.1, c3.2, c4.1, c4.2, Bool.and_eq_true, Bool.or_eq_true, and_assoc,
      String.toList]
  | _ :: _ :: _ :: _ :: _ :: _ => simp [hs]

/-- C11.  A `set` of the boolean command 106 on a device of the registry calls
the setter once, with the value `true` if and only if the argument, every
character lower-cased, is exactly `true`, that is, if and only if the argument
is the four letters t, r, u, e in any mix of cases; no other getter or setter
is called, and the reply carries the status of the setter. -/
theorem set_bool_true_iff (lib : Libs) (d : Driver) (sv : Server)
    (id command argument : String) (rest : List String) (cam : ImageCam)
    (h : map_at sv.imagecams (lib.hash32 id) = some cam) (hc : atol command = 106) :
    ∃ sv1 b, loop_body lib d sv ("set" :: id :: command :: argument :: rest) = Except.ok sv1
      ∧ sv1.world.log.filter Call.is_accessor =
          sv.world.log.filter Call.is_accessor ++ [Call.set 106 cam.handle (Arg.bool b)]
      ∧ (b = true ↔ String.mk (argument.toList.map tolower) = "true")
      ∧ b = is_true_ignoring_case argument
      ∧ sv1.world.sent = sv.world.sent ++
          [[command, id, "set", "None",
            to_string (d.allied_set sv.world.log 106 cam.handle (Arg.bool b)),
            ack_tag (d.allied_set sv.world.log 106 cam.handle (Arg.bool b))]] := by
  have hl : ∃ sv1, loop_body lib d sv ("set" :: id :: command :: argument :: rest) = Except.ok sv1
      ∧ sv1.world = World.send
          (cam.destroy d (sv.world.call
            (Call.set 106 cam.handle (Arg.bool (set_case_bool_arg argument)))))
          [command, id, "set", "None",
            to_string (d.allied_set sv.world.log 106 cam.handle
              (Arg.bool (set_case_bool_arg argument))),
            ack_tag (d.allied_set sv.world.log 106 cam.handle
              (Arg.bool (set_case_bool_arg argument)))] := by
    simp [loop_body, decode_set, dispatch, atol_ptr, zmsg_popstr, h, hc, set_switch,
      set_case_bool_arg, send_reply, encode_reply, zmsg_pushstr, ack_tag]
  obtain ⟨sv1, h1, h2⟩ := hl
  refine ⟨sv1, set_case_bool_arg argument, h1, ?_, ?_, set_case_bool_arg_eq argument, ?_⟩
  · simp [h2, World.send, destroy_accessors, World.call, Call.is_accessor]
  · simp [set_case_bool_arg]
  · simp [h2, World.send, destroy_sent, World.call]

/-- C11, evaluated: `set camA 106 TRUE` hands `true` to the setter; of the
arguments `TRUE`, `True`, `true` and `1`, `yes`, ` true`, `true `, the empty
string, the first three are truthy and the others are not. -/
theorem set_bool_true_iff_witness :
    map_at sample_server.imagecams (sample_libs.hash32 "camA") = some sample_cam
      ∧ atol "106" = 106
      ∧ (∃ sv1 b,
          loop_body sample_libs sample_driver sample_server ["set", "camA", "106", "TRUE"]
            = Except.ok sv1
          ∧ sv1.world.log.filter Call.is_accessor =
              sample_server.world.log.filter Call.is_accessor
                ++ [Call.set 106 sample_cam.handle (Arg.bool b)]
          ∧ (b = true ↔ String.mk ("TRUE".toList.map tolower) = "true")
          ∧ b = is_true_ignoring_case "TRUE"
          ∧ sv1.world.sent = sample_server.world.sent ++
              [["106", "camA", "set", "None",
                to_string (sample_driver.allied_set sample_server.world.log 106
                  sample_cam.handle (Arg.bool b)),
                ack_tag (sample_driver.allied_set sample_server.world.log 106
                  sample_cam.handle (Arg.bool b))]])
      ∧ loop_body sample_libs sample_driver sample_server ["set", "camA", "106", "TRUE"]
          = Except.ok { sample_server with
              world := { log := [Call.set 106 (some 1) (Arg.bool true)],
                         sent := [["106", "camA", "set", "None", "0", "ACK"]] } }
      ∧ ["TRUE", "True", "true"].map is_true_ignoring_case = [true, true, true]
      ∧ ["1", "yes", " true", "true ", ""].map is_true_ignoring_case
          = [false, false, false, false, false] :=
  ⟨by decide, by decide,
   set_bool_true_iff sample_libs sample_driver sample_server "camA" "106" "TRUE" []
     sample_cam (by decide) (by decide),
   by rfl, by decide, by decide⟩


/-! ## The `list` verb -/

/-- The enumeration appends one key per camera listed, in the order of the
listing. -/
theorem enumerate_camids (lib : Libs) (d : Driver) (adio_dev : Option DeviceHandle)
    (infos : List CameraInfo) (sv sv1 : Server)
    (h : enumerate lib d adio_dev infos sv = some sv1) :
    sv1.camids = sv.camids ++ infos.map (fun info => lib.hash32 info.idstr) := by
  induction infos generalizing sv with
  | nil =>
    simp [enumerate] at h
    simp [h]
  | cons info rest ih =>
    unfold enumerate at h
    dsimp only at h
    split at h
    · cases h
    · have := ih _ h
      simpa using this

theorem foldl_append_eq (f : Nat → String) (ks : List Nat) (init : String) :
    ks.foldl (fun r k => r ++ f k) init = init ++ ks.foldr (fun k acc => f k ++ acc) "" := by
  induction ks generalizing init with
  | nil => simp
  | cons k rest ih =>
    simp only [List.foldl_cons, List.foldr_cons, ih, String.append_assoc]

/-- The text the `list` verb builds: an opening bracket, then every key in
decimal, each followed by a comma and a blank; no closing bracket. -/
theorem list_reply_eq (camids : List Nat) :
    list_reply camids =
      "[" ++ camids.foldr (fun k acc => (to_string_nat k ++ ", ") ++ acc) "" :=
  foldl_append_eq _ camids "["

/-- C12 (code defect).  On a server whose registry was built by the enumeration
of `infos`, the keys listed are the 32-bit hashes of the device ids in the
order of the enumeration, and the `list` verb sets the success status and
builds the text `[` followed by each key in decimal with `, ` after it (the
bracket is never closed and the last key is followed by a separator); the
iteration then stops at `atol(command)` with `command` at `NULL`, so that no
reply is sent. -/
theorem list_builds_text_and_faults (lib : Libs) (d : Driver)
    (adio_dev : Option DeviceHandle) (infos : List CameraInfo) (w : World) (sv : Server)
    (rest : List String)
    (h : enumerate lib d adio_dev infos (Server.initial w) = some sv) :
    sv.camids = infos.map (fun info => lib.hash32 info.idstr)
      ∧ (∀ k ∈ sv.camids, k < 2 ^ 32)
      ∧ decode lib d sv ("list" :: rest) =
          Except.ok ({ cmd_type := "list", err := VmbErrorSuccess, message := rest,
                       reply := "[" ++ (infos.map (fun info => lib.hash32 info.idstr)).foldr
                         (fun k acc => (to_string_nat k ++ ", ") ++ acc) "" }, sv)
      ∧ loop_body lib d sv ("list" :: rest) = Except.error Fault.null_pointer := by
  have hk : sv.camids = infos.map (fun info => lib.hash32 info.idstr) := by
    simpa [Server.initial] using enumerate_camids lib d adio_dev infos _ sv h
  refine ⟨hk, ?_, ?_, ?_⟩
  · intro k hmem
    rw [hk] at hmem
    obtain ⟨info, -, rfl⟩ := List.mem_map.mp hmem
    exact Nat.mod_lt _ (by decide)
  · simp [decode, zmsg_popstr, list_reply_eq, hk]
  · exact loop_body_not_get_set lib d sv "list" rest (by decide) (by decide)

/-- C12, evaluated: with the cameras `camA` and `camB` enumerated, `list` builds
`[9510617, 9510618, ` and the iteration sends nothing. -/
theorem list_builds_text_and_faults_witness :
    (∃ sv, enumerate sample_libs sample_driver (some 1) sample_infos (Server.initial World.empty)
          = some sv
        ∧ sv.camids = [9510617, 9510618]
        ∧ decode sample_libs sample_driver sv ["list"] =
            Except.ok ({ cmd_type := "list", err := VmbErrorSuccess, message := [],
                         reply := "[9510617, 9510618, " }, sv)
        ∧ loop_body sample_libs sample_driver sv ["list"] = Except.error Fault.null_pointer) := by
  have he : ∃ sv, enumerate sample_libs sample_driver (some 1) sample_infos
      (Server.initial World.empty) = some sv := ⟨_, rfl⟩
  obtain ⟨sv, hsv⟩ := he
  obtain ⟨h1, -, h3, h4⟩ :=
    list_builds_text_and_faults sample_libs sample_driver (some 1) sample_infos World.empty sv
      [] hsv
  refine ⟨sv, hsv, ?_, ?_, h4⟩
  · rw [h1]; decide
  · rw [h3]; rfl


/-! ## Integer arguments -/

/-- C13 (counterexample).  `set camA 300 abc`: `atol` reads `abc` as 0, the
setter is called with 0, and the reply is the success status with the tag
`ACK`. -/
theorem set_int_unparsable_counterexample :
    atol "abc" = 0
      ∧ loop_body sample_libs sample_driver sample_server ["set", "camA", "300", "abc"] =
          Except.ok { sample_server with
            world := { log := [Call.set 300 (some 1) (Arg.int 0)],
                       sent := [["300", "camA", "set", "None", "0", "ACK"]] } } :=
  ⟨by decide, by rfl⟩

/-- C13 (amended).  A `set` on a device of the registry for an integer-valued
command converts the argument text with `atol`, whatever the text is.  For the
throughput limit (300) the setter is called once with `atol argument`; for the
image size (200) and the image offset (201) it is called once with the pair
`atol argument`, `atol arg2`; in both cases the reply carries the status the
setter returns and the registry is unchanged.  For the signal bit (10) no
getter or setter is called and the reply is the success status with the tag
`ACK`. -/
theorem set_int_converts_with_atol (lib : Libs) (d : Driver) (sv : Server)
    (id command argument : String) (rest : List String) (cam : ImageCam)
    (h : map_at sv.imagecams (lib.hash32 id) = some cam) :
    (atol command = 300 →
      ∃ sv1, loop_body lib d sv ("set" :: id :: command :: argument :: rest) = Except.ok sv1
        ∧ sv1.world.log.filter Call.is_accessor = sv.world.log.filter Call.is_accessor ++
            [Call.set 300 cam.handle (Arg.int (atol argument))]
        ∧ sv1.world.sent = sv.world.sent ++
            [[command, id, "set", "None",
              to_string (d.allied_set sv.world.log 300 cam.handle (Arg.int (atol argument))),
              ack_tag (d.allied_set sv.world.log 300 cam.handle (Arg.int (atol argument)))]]
        ∧ sv1.imagecams = sv.imagecams)
    ∧ ((atol command = 200 ∨ atol command = 201) → ∀ arg2 : String,
      ∃ sv1, loop_body lib d sv ("set" :: id :: command :: argument :: arg2 :: rest)
          = Except.ok sv1
        ∧ sv1.world.log.filter Call.is_accessor = sv.world.log.filter Call.is_accessor ++
            [Call.set (atol command) cam.handle (Arg.pair (atol argument) (atol arg2))]
        ∧ sv1.world.sent = sv.world.sent ++
            [[command, id, "set", "None",
              to_string (d.allied_set sv.world.log (atol command) cam.handle
                (Arg.pair (atol argument) (atol arg2))),
              ack_tag (d.allied_set sv.world.log (atol command) cam.handle
                (Arg.pair (atol argument) (atol arg2)))]]
        ∧ sv1.imagecams = sv.imagecams)
    ∧ (atol command = 10 →
      ∃ sv1, loop_body lib d sv ("set" :: id :: command :: argument :: rest) = Except.ok sv1
        ∧ sv1.world.log.filter Call.is_accessor = sv.world.log.filter Call.is_accessor
        ∧ sv1.world.sent = sv.world.sent ++ [[command, id, "set", "None", "0", "ACK"]]) := by
  refine ⟨?_, ?_, ?_⟩
  · intro hc
    simp [loop_body, decode_set, dispatch, atol_ptr, zmsg_popstr, h, hc, set_switch,
      send_reply, encode_reply, zmsg_pushstr, World.send, destroy_sent, destroy_accessors,
      World.call, Call.is_accessor, ack_tag]
  · intro hc arg2
    rcases hc with hc | hc <;>
      simp [loop_body, decode_set, dispatch, atol_ptr, zmsg_popstr, h, hc, set_switch,
        send_reply, encode_reply, zmsg_pushstr, World.send, destroy_sent, destroy_accessors,
        World.call, Call.is_accessor, ack_tag]
  · intro hc
    simp [loop_body, decode_set, dispatch, atol_ptr, zmsg_popstr, h, hc, set_switch,
      send_reply, encode_reply, zmsg_pushstr, World.send, destroy_sent, destroy_accessors,
      World.call, Call.is_accessor, ack_tag]
    rfl

/-- C13 (amended), evaluated on `camA` with arguments that are no integers:
`abc` and the empty string are read as 0. -/
theorem set_int_converts_with_atol_witness :
    map_at sample_server.imagecams (sample_libs.hash32 "camA") = some sample_cam
      ∧ atol "abc" = 0 ∧ atol "" = 0
      ∧ (∃ sv1, loop_body sample_libs sample_driver sample_server ["set", "camA", "300", "abc"]
            = Except.ok sv1
          ∧ sv1.world.log.filter Call.is_accessor =
              sample_server.world.log.filter Call.is_accessor ++
                [Call.set 300 sample_cam.handle (Arg.int (atol "abc"))]
          ∧ sv1.world.sent = sample_server.world.sent ++
              [["300", "camA", "set", "None",
                to_string (sample_driver.allied_set sample_server.world.log 300
                  sample_cam.handle (Arg.int (atol "abc"))),
                ack_tag (sample_driver.allied_set sample_server.world.log 300
                  sample_cam.handle (Arg.int (atol "abc")))]]
          ∧ sv1.imagecams = sample_server.imagecams)
      ∧ (∃ sv1, loop_body sample_libs sample_driver sample_server
              ["set", "camA", "200", "", "abc"] = Except.ok sv1
          ∧ sv1.world.log.filter Call.is_accessor =
              sample_server.world.log.filter Call.is_accessor ++
                [Call.set (atol "200") sample_cam.handle (Arg.pair (atol "") (atol "abc"))]
          ∧ sv1.world.sent = sample_server.world.sent ++
              [["200", "camA", "set", "None",
                to_string (sample_driver.allied_set sample_server.world.log (atol "200")
                  sample_cam.handle (Arg.pair (atol "") (atol "abc"))),
                ack_tag (sample_driver.allied_set sample_server.world.log (atol "200")
                  sample_cam.handle (Arg.pair (atol "") (atol "abc")))]]
          ∧ sv1.imagecams = sample_server.imagecams)
      ∧ (∃ sv1, loop_body sample_libs sample_driver sample_server ["set", "camA", "10", "abc"]
            = Except.ok sv1
          ∧ sv1.world.log.filter Call.is_accessor =
              sample_server.world.log.filter Call.is_accessor
          ∧ sv1.world.sent = sample_server.world.sent ++
              [["10", "camA", "set", "None", "0", "ACK"]]) :=
  ⟨by decide, by decide, by decide,
   (set_int_converts_with_atol sample_libs sample_driver sample_server "camA" "300" "abc" []
      sample_cam (by decide)).1 (by decide),
   (set_int_converts_with_atol sample_libs sample_driver sample_server "camA" "200" "" []
      sample_cam (by decide)).2.1 (Or.inl (by decide)) "abc",
   (set_int_converts_with_atol sample_libs sample_driver sample_server "camA" "10" "abc" []
      sample_cam (by decide)).2.2 (by decide)⟩

end AlliedCli
